import Mathlib

/-!
Shallow embedding of the financial-metrics core of the modelfleuriet
repository.  Python floats are modelled as exact rationals (ℚ); Python
None / NaN results are modelled as Option.none; Python dicts keyed by
strings are modelled as functions String → Option ℚ (dict.get k returns
none when the key is absent, and dget models dict.get with a default).
-/

namespace ModelFleuriet

/-! ## src/core/analysis.py -/

/-- A reclassified-data dict: semantic category name → summed value.
Python dict.get k yields None when the key is missing. -/
abbrev RDict := String → Option ℚ

/-- Python dict.get k default. -/
def dget (d : RDict) (k : String) (default : ℚ) : ℚ := (d k).getD default

/-- safe_divide from src/core/analysis.py: None when the denominator is
None/NaN/0 or the numerator is None/NaN (NaN is modelled as none). -/
def safe_divide (numerator denominator : Option ℚ) : Option ℚ :=
  match denominator with
  | none => none
  | some dv =>
    if dv = 0 then none
    else
      match numerator with
      | none => none
      | some nv => some (nv / dv)

/-- FLEURIET_ACCOUNT_MAPPING from src/core/analysis.py. -/
def FLEURIET_ACCOUNT_MAPPING : List (String × String) :=
  [("1", "Ativo_Total"), ("1.01.01", "T_Ativo"), ("1.01.02", "T_Ativo"),
   ("1.01.03", "AC_Clientes"), ("1.01.04", "AC_Estoques"), ("1.01.06", "AC"),
   ("1.01.07", "AC"), ("1.01.08", "AC"), ("1.02", "ANC"), ("2.01.01", "PC"),
   ("2.01.02", "PC_Fornecedores"), ("2.01.03", "PC"), ("2.01.04", "T_Passivo"),
   ("2.01.05", "PC"), ("2.02", "PNC"), ("2.02.01", "T_Passivo"), ("2.03", "PL"),
   ("3.01", "DRE_Receita"), ("3.02", "DRE_Custo"), ("3.05", "DRE_LucroOperacional"),
   ("3.09", "DRE_ImpostoRenda"), ("3.11", "DRE_LucroLiquido")]

/-- FLEURIET_ACCOUNT_MAPPING.get x with default bucket Outros. -/
def mapping_get (x : String) : String :=
  (FLEURIET_ACCOUNT_MAPPING.lookup x).getD "Outros"

/-- A statement DataFrame for one company and one period: the CD_CONTA and
VL_CONTA columns as a list of rows, plus the CATEGORY column when present
(reclassify_and_sum assigns it on the frame it receives). -/
structure DataFrame where
  rows : List (String × ℚ)
  category : Option (List String) := none
deriving DecidableEq, Repr

/-- ASCII whitespace, as stripped by str.strip. -/
def isSpaceChar (c : Char) : Bool :=
  c = ' ' || c = '\t' || c = '\n' || c = '\r' || c = '\x0b' || c = '\x0c'

/-- str.strip: drop leading and trailing whitespace. -/
def pyStrip (s : String) : String :=
  String.mk (((s.toList.dropWhile isSpaceChar).reverse.dropWhile isSpaceChar).reverse)

/-- The category assigned to one row: the stripped account code looked up
in the fixed mapping (df.CD_CONTA.astype str .str.strip .apply ...). -/
def rowCategory (cd : String) : String := mapping_get (pyStrip cd)

/-- groupby CATEGORY sum for one category: the sum of VL_CONTA over the
rows whose assigned category is c. -/
def sumForCategory (df : DataFrame) (c : String) : ℚ :=
  ((df.rows.filter (fun r => rowCategory r.1 = c)).map Prod.snd).sum

/-- reclassify_and_sum from src/core/analysis.py.  The Python function
assigns the CATEGORY column on the DataFrame it was given (an in-place
effect) and returns the category → summed-value dict of
groupby CATEGORY VL_CONTA sum to_dict; the post-state of the argument is
returned as the first component. -/
def reclassify_and_sum (df : DataFrame) : DataFrame × RDict :=
  let cats := df.rows.map (fun r => rowCategory r.1)
  let dfAfter : DataFrame := { df with category := some cats }
  let summed_data : RDict :=
    fun c => if cats.contains c then some (sumForCategory df c) else none
  (dfAfter, summed_data)

/-- The NCG/CDG/T dict returned by calculate_fleuriet_indicators. -/
structure BaseIndicators where
  NCG : ℚ
  CDG : ℚ
  T : ℚ
deriving DecidableEq, Repr

/-- calculate_fleuriet_indicators from src/core/analysis.py: the base
Fleuriet indicators and the financial-structure classification string. -/
def calculate_fleuriet_indicators (reclassified_data : RDict) :
    BaseIndicators × String :=
  let AC_Operacional :=
    dget reclassified_data "AC_Clientes" 0 + dget reclassified_data "AC_Estoques" 0
  let PC_Operacional := dget reclassified_data "PC_Fornecedores" 0
  let NCG := AC_Operacional - PC_Operacional
  let PL := dget reclassified_data "PL" 0
  let PNC := dget reclassified_data "PNC" 0
  let ANC := dget reclassified_data "ANC" 0
  let CDG := PL + PNC - ANC
  let T := CDG - NCG
  let tipo_estrutura : String :=
    if CDG > 0 ∧ NCG > 0 ∧ T > 0 then "Estrutura Ótima"
    else if CDG > 0 ∧ NCG > 0 ∧ T < 0 then "Alto Risco Financeiro"
    else if CDG > 0 ∧ NCG < 0 then "Baixo Risco Financeiro"
    else if CDG < 0 ∧ NCG < 0 ∧ T > 0 then "Estrutura Péssima (Sobra)"
    else if CDG < 0 ∧ NCG < 0 ∧ T < 0 then "Estrutura Péssima (Falta)"
    else if CDG < 0 ∧ NCG > 0 then "Insolvência Total"
    else "Não identificado"
  (⟨NCG, CDG, T⟩, tipo_estrutura)

/-- Whether pat is a prefix of s, on character lists. -/
def listPrefixTest : List Char → List Char → Bool
  | [], _ => true
  | _ :: _, [] => false
  | p :: ps, c :: cs => p = c && listPrefixTest ps cs

/-- Whether pat occurs as a contiguous run inside s, on character lists. -/
def listInfixTest (pat : List Char) : List Char → Bool
  | [] => pat.isEmpty
  | c :: rest => listPrefixTest pat (c :: rest) || listInfixTest pat rest

/-- Python substring membership test (the in operator on strings). -/
def strContainsSub (s pat : String) : Bool := listInfixTest pat.toList s.toList

/-- The numeric structure-type ordinal used by calculate_z_score_prado:
mapped from the classification string by substring tests. -/
def tipo_estrutura_ordinal (tipo_estrutura_str : String) : ℚ :=
  if strContainsSub tipo_estrutura_str "Ótima" ∨ strContainsSub tipo_estrutura_str "Excelente" then 4
  else if strContainsSub tipo_estrutura_str "Boa" then 3
  else if strContainsSub tipo_estrutura_str "Risco" then 2
  else if strContainsSub tipo_estrutura_str "Péssima" ∨ strContainsSub tipo_estrutura_str "Insolvência" then 1
  else 0

/-- The risk-class thresholds at the end of calculate_z_score_prado. -/
def z_risk_class (z : ℚ) : String :=
  if z > 2675/1000 then "Classe A (Risco Mínimo)"
  else if 2 < z then "Classe B"
  else if 3/2 < z then "Classe C"
  else if 1 < z then "Classe D (Atenção)"
  else "Classe E (Risco Elevado)"

/-- calculate_z_score_prado from src/core/analysis.py.  The base_indicators
dict is passed as its CDG/NCG/T entries (dict.get, hence Option) together
with the TipoEstrutura.tipo string; Ativo_Total, DRE_Receita, PC and PNC
are read from the reclassified-data dict.  Returns the Z score (none on
the insufficient-data and impossible-computation paths) and the message
or risk-class string. -/
def calculate_z_score_prado (reclassified_data : RDict)
    (cdg ncg t : Option ℚ) (tipo_estrutura_str : String) : Option ℚ × String :=
  let ativo_total := reclassified_data "Ativo_Total"
  let receita_liquida := reclassified_data "DRE_Receita"
  let pcf := reclassified_data "PC"
  let pncf := reclassified_data "PNC"
  match cdg, ncg, t, ativo_total, receita_liquida, pcf, pncf with
  | some cdgv, some ncgv, some tv, some tav, some recv, some pcfv, some pncfv =>
      let x1 := safe_divide (some cdgv) (some tav)
      let x2 := safe_divide (some ncgv) (some recv)
      let x3 : ℚ := tipo_estrutura_ordinal tipo_estrutura_str
      let x4 := if ncgv ≠ 0 then safe_divide (some tv) (some |ncgv|) else none
      let x5 := if tav ≠ 0 then safe_divide (some (pcfv + pncfv)) (some tav) else none
      match x1, x2, x4, x5 with
      | some x1v, some x2v, some x4v, some x5v =>
          let z := 1887/1000 + (899/1000) * x1v + (971/1000) * x2v
                   - (444/1000) * x3 + (55/1000) * x4v - (980/1000) * x5v
          (some z, z_risk_class z)
      | _, _, _, _ => (none, "Cálculo impossível")
  | _, _, _, _, _, _, _ => (none, "Dados insuficientes")

/-! ## src/core/valuation_analysis.py -/

/-- The valuation core of processar_valuation_empresa (lines 283-298 of
src/core/valuation_analysis.py): the WACC sanity band, the perpetuity
growth guard, EVA and the intrinsic firm value.  Returns none on the
guard paths (the Python function returns None), otherwise the pair
(EVA, firm value). -/
def processar_valuation_firm_value (capital_empregado roic wacc g : ℚ) :
    Option (ℚ × ℚ) :=
  if wacc ≤ 1/100 ∨ wacc ≥ 40/100 then none
  else if wacc ≤ g then none
  else
    let eva := (roic - wacc) * capital_empregado
    let valor_firma := capital_empregado + (eva * (1 + g)) / (wacc - g)
    some (eva, valor_firma)

/-! ## src/backend/core/financial_metrics_calculator.py
(NaN results are modelled as Option.none) -/

/-- CompanyFinancialData from src/backend/core/data_collector.py (the
numeric fields used by the metrics calculator; every field defaults to
0 in the dataclass).  property_plant_equipment is Option because
_calculate_capital_employed checks it against None. -/
structure CompanyFinancialData where
  ticker : String := ""
  company_name : String := ""
  market_cap : ℚ := 0
  stock_price : ℚ := 0
  revenue : ℚ := 0
  ebit : ℚ := 0
  net_income : ℚ := 0
  total_assets : ℚ := 0
  total_debt : ℚ := 0
  equity : ℚ := 0
  current_assets : ℚ := 0
  current_liabilities : ℚ := 0
  cash : ℚ := 0
  property_plant_equipment : Option ℚ := some 0
  capex : ℚ := 0
  accounts_receivable : ℚ := 0
  inventory : ℚ := 0
  accounts_payable : ℚ := 0
deriving DecidableEq, Repr

/-- FinancialMetricsCalculator configuration (constructor defaults:
tax_rate 0.34, risk_free_rate Selic/100 or 0.10, market_risk_premium 0.06). -/
structure FinancialMetricsCalculator where
  tax_rate : ℚ := 34/100
  risk_free_rate : ℚ := 10/100
  market_risk_premium : ℚ := 6/100
deriving DecidableEq, Repr

namespace FinancialMetricsCalculator

/-- The constructor: risk_free_rate is selic_rate/100 when selic_rate is
truthy (present and nonzero), else the 0.10 default. -/
def ofSelic (selic_rate : Option ℚ) : FinancialMetricsCalculator :=
  { tax_rate := 34/100
    risk_free_rate :=
      match selic_rate with
      | some s => if s = 0 then 10/100 else s / 100
      | none => 10/100
    market_risk_premium := 6/100 }

/-- NOPAT = EBIT times (1 - tax rate). -/
def _calculate_nopat (c : FinancialMetricsCalculator) (ebit : ℚ) : ℚ :=
  ebit * (1 - c.tax_rate)

/-- NCG = accounts receivable + inventory - accounts payable. -/
def _calculate_ncg (data : CompanyFinancialData) : ℚ :=
  data.accounts_receivable + data.inventory - data.accounts_payable

/-- Capital employed = property, plant and equipment (0 when None) + NCG. -/
def _calculate_capital_employed (data : CompanyFinancialData) : ℚ :=
  (data.property_plant_equipment.getD 0) + _calculate_ncg data

/-- Ke = risk-free rate + beta times market risk premium (CAPM). -/
def _calculate_cost_of_equity_ke (c : FinancialMetricsCalculator) (beta : ℚ) : ℚ :=
  c.risk_free_rate + beta * c.market_risk_premium

/-- Kd: risk-free rate plus a 20 percent spread when there is debt, else 0.05. -/
def _calculate_cost_of_debt_kd (c : FinancialMetricsCalculator)
    (data : CompanyFinancialData) : ℚ :=
  if data.total_debt > 0 then c.risk_free_rate * (12/10) else 5/100

/-- WACC; none (np.nan in the source) when equity + debt is nonpositive. -/
def _calculate_wacc (c : FinancialMetricsCalculator) (data : CompanyFinancialData)
    (beta : ℚ) : Option ℚ :=
  let total_capital := data.equity + data.total_debt
  if total_capital ≤ 0 then none
  else
    let ke := _calculate_cost_of_equity_ke c beta
    let kd := _calculate_cost_of_debt_kd c data
    let percent_ke := data.equity / total_capital
    let percent_kd := data.total_debt / total_capital
    some (ke * percent_ke + kd * (1 - c.tax_rate) * percent_kd)

/-- ROCE = NOPAT / capital employed; none (np.nan) only when the passed
capital employed is exactly zero. -/
def _calculate_roce (c : FinancialMetricsCalculator) (data : CompanyFinancialData)
    (capital_employed : ℚ) : Option ℚ :=
  if capital_employed = 0 then none
  else some (_calculate_nopat c data.ebit / capital_employed)

/-- calculate_eva: none (the nan, nan pair) when capital employed ≤ 0 or
WACC/ROCE is nan; otherwise (EVA absolute, EVA percent). -/
def calculate_eva (c : FinancialMetricsCalculator) (data : CompanyFinancialData)
    (beta : ℚ) : Option (ℚ × ℚ) :=
  let capital_employed := _calculate_capital_employed data
  if capital_employed ≤ 0 then none
  else
    match _calculate_wacc c data beta, _calculate_roce c data capital_employed with
    | some wacc, some roce =>
        some (capital_employed * (roce - wacc), (roce - wacc) * 100)
    | _, _ => none

/-- Riqueza atual = EVA / WACC; none when EVA or WACC is nan or WACC = 0. -/
def calculate_riqueza_atual (c : FinancialMetricsCalculator)
    (data : CompanyFinancialData) (beta : ℚ) : Option ℚ :=
  match calculate_eva c data beta, _calculate_wacc c data beta with
  | some evap, some wacc => if wacc = 0 then none else some (evap.1 / wacc)
  | _, _ => none

/-- Riqueza futura = market cap + total debt - capital employed (its NaN
guards never fire in the exact model, so it is total on ℚ). -/
def calculate_riqueza_futura (data : CompanyFinancialData) : ℚ :=
  data.market_cap + data.total_debt - _calculate_capital_employed data

/-- calculate_efv: (EFV absolute, EFV percent); none when riqueza atual is
nan or capital employed ≤ 0. -/
def calculate_efv (c : FinancialMetricsCalculator) (data : CompanyFinancialData)
    (beta : ℚ) : Option (ℚ × ℚ) :=
  match calculate_riqueza_atual c data beta with
  | none => none
  | some riqueza_atual_abs =>
    let riqueza_futura_esperada_abs := calculate_riqueza_futura data
    let efv_abs := riqueza_futura_esperada_abs - riqueza_atual_abs
    let capital_employed := _calculate_capital_employed data
    if capital_employed ≤ 0 then none
    else some (efv_abs, efv_abs / capital_employed * 100)

/-- calculate_upside = EFV absolute / market cap times 100; none when
market cap ≤ 0. -/
def calculate_upside (data : CompanyFinancialData) (efv_abs : ℚ) : Option ℚ :=
  if data.market_cap ≤ 0 then none
  else some (efv_abs / data.market_cap * 100)

end FinancialMetricsCalculator

/-! ## src/core/utils.py -/

/-- A Python value as seen by clean_data_for_json: floats (with NaN and
infinity as distinct states), None, strings, Timestamps (modelled by
their isoformat string), lists and dicts. -/
inductive PyVal where
  | pfloat (q : ℚ)
  | pnan
  | pinf
  | pnone
  | pstr (s : String)
  | ptimestamp (iso : String)
  | plist (items : List PyVal)
  | pdict (entries : List (String × PyVal))

mutual

/-- clean_data_for_json from src/core/utils.py: recursively converts
NaN/Inf floats to None and Timestamps to their isoformat string. -/
def clean_data_for_json : PyVal → PyVal
  | .pdict entries => .pdict (cleanEntries entries)
  | .plist items => .plist (cleanList items)
  | .pnan => .pnone
  | .pinf => .pnone
  | .ptimestamp iso => .pstr iso
  | .pfloat q => .pfloat q
  | .pnone => .pnone
  | .pstr s => .pstr s

/-- clean_data_for_json mapped over a list. -/
def cleanList : List PyVal → List PyVal
  | [] => []
  | v :: rest => clean_data_for_json v :: cleanList rest

/-- clean_data_for_json mapped over dict entries. -/
def cleanEntries : List (String × PyVal) → List (String × PyVal)
  | [] => []
  | (k, v) :: rest => (k, clean_data_for_json v) :: cleanEntries rest

end

mutual

/-- Whether a value contains a NaN or infinite float anywhere inside. -/
def hasNanInfVal : PyVal → Bool
  | .pnan => true
  | .pinf => true
  | .plist items => hasNanInfList items
  | .pdict entries => hasNanInfEntries entries
  | _ => false

/-- hasNanInfVal over a list. -/
def hasNanInfList : List PyVal → Bool
  | [] => false
  | v :: rest => hasNanInfVal v || hasNanInfList rest

/-- hasNanInfVal over dict entries. -/
def hasNanInfEntries : List (String × PyVal) → Bool
  | [] => false
  | (_, v) :: rest => hasNanInfVal v || hasNanInfEntries rest

end

/-! ## src/core/company_ranking.py -/

namespace CompanyRanking

open FinancialMetricsCalculator

/-- The eva_percentual column value a company contributes to the frame of
generate_ranking_report, after the cleanup loop (lines 77-80 of
src/core/company_ranking.py) replaced infinities by NaN and filled NaN
with 0: the eva_pct of calculate_eva with beta 1 fixed by
_calculate_all_metrics, or 0 when it is nan. -/
def report_eva_percentual (c : FinancialMetricsCalculator)
    (data : CompanyFinancialData) (beta : ℚ) : ℚ :=
  ((calculate_eva c data beta).map Prod.snd).getD 0

/-- The upside_percentual column value after the same fillna 0 cleanup:
calculate_upside of the EFV absolute when EFV is not nan, else nan,
then filled with 0. -/
def report_upside_percentual (c : FinancialMetricsCalculator)
    (data : CompanyFinancialData) (beta : ℚ) : ℚ :=
  let efv := calculate_efv c data beta
  let upside := match efv with
    | some e => calculate_upside data e.1
    | none => none
  upside.getD 0

end CompanyRanking

/-! ## src/core/advanced_ranking.py -/

/-- Python round to 4 decimal places (banker's rounding: ties go to the
even last digit), on exact rationals. -/
def round_half_even (q : ℚ) : ℤ :=
  let f := ⌊q⌋
  let r := q - f
  if r < 1/2 then f
  else if 1/2 < r then f + 1
  else if f % 2 = 0 then f else f + 1

/-- round(v, 4) as used on the final portfolio weights. -/
def pyRound4 (q : ℚ) : ℚ := (round_half_even (q * 10000) : ℚ) / 10000

/-- suggest_portfolio_allocation from src/core/advanced_ranking.py for the
default moderate profile, starting from the processed (ticker, score)
rows (the replace inf / fillna 0 step is the identity on exact scores):
keep the rows with positive score; when none remain (so also whenever the
total score is zero) every input ticker gets weight 0.0; otherwise each
kept ticker gets score / total, the weights are renormalized by their sum
and rounded to 4 decimal places. -/
def suggest_portfolio_allocation (processed_data : List (String × ℚ)) :
    List (String × ℚ) :=
  let df := processed_data.filter (fun p => p.2 > 0)
  if df.isEmpty then processed_data.map (fun p => (p.1, 0))
  else
    let total_score := (df.map Prod.snd).sum
    if total_score = 0 then processed_data.map (fun p => (p.1, 0))
    else
      let portfolio_weights := df.map (fun p => (p.1, p.2 / total_score))
      let current_sum := (portfolio_weights.map Prod.snd).sum
      let normalized :=
        if current_sum > 0 then portfolio_weights.map (fun p => (p.1, p.2 / current_sum))
        else portfolio_weights
      normalized.map (fun p => (p.1, pyRound4 p.2))

/-- RankingCriteria from src/core/advanced_ranking.py. -/
structure RankingCriteria where
  eva_weight : ℚ := 3/10
  efv_weight : ℚ := 3/10
  upside_weight : ℚ := 2/10
  profitability_weight : ℚ := 1/10
  liquidity_weight : ℚ := 1/10
deriving DecidableEq, Repr

/-- normalize_weights: divide every weight by the total when it is
positive, else leave the criteria unchanged. -/
def RankingCriteria.normalize_weights (c : RankingCriteria) : RankingCriteria :=
  let total := c.eva_weight + c.efv_weight + c.upside_weight +
    c.profitability_weight + c.liquidity_weight
  if total > 0 then
    { eva_weight := c.eva_weight / total
      efv_weight := c.efv_weight / total
      upside_weight := c.upside_weight / total
      profitability_weight := c.profitability_weight / total
      liquidity_weight := c.liquidity_weight / total }
  else c

/-- sklearn MinMaxScaler fit_transform on the 1x1 array [[x]], as invoked
per company by custom_rank_companies: data_min = data_max = x, the zero
data range is replaced by 1, so the scaled value is (x - x) / 1. -/
def min_max_fit_transform_single (x : ℚ) : ℚ :=
  let data_min := x
  let data_max := x
  let data_range := data_max - data_min
  let scale := 1 / (if data_range = 0 then 1 else data_range)
  (x - data_min) * scale

/-- The final_score of one company in custom_rank_companies (lines
209-233 of src/core/advanced_ranking.py): each metric is min-max scaled
by a scaler fit on that single company's value (NaN metrics contribute
the literal 0), then combined with the criteria weights. -/
def custom_rank_final_score (criteria : RankingCriteria)
    (eva_pct efv_pct upside : Option ℚ)
    (profitability_score liquidity_score : ℚ) : ℚ :=
  let scaled_eva := match eva_pct with
    | some v => min_max_fit_transform_single v
    | none => 0
  let scaled_efv := match efv_pct with
    | some v => min_max_fit_transform_single v
    | none => 0
  let scaled_upside := match upside with
    | some v => min_max_fit_transform_single v
    | none => 0
  let scaled_profitability := min_max_fit_transform_single profitability_score
  let scaled_liquidity := min_max_fit_transform_single liquidity_score
  scaled_eva * criteria.eva_weight +
    scaled_efv * criteria.efv_weight +
    scaled_upside * criteria.upside_weight +
    scaled_profitability * criteria.profitability_weight +
    scaled_liquidity * criteria.liquidity_weight

open FinancialMetricsCalculator in
/-- The final_score custom_rank_companies computes for one company of the
collection: metrics from the calculator with beta 1, profitability and
liquidity scores from the raw data, every metric scaled per company. -/
def custom_rank_company_score (fmc : FinancialMetricsCalculator)
    (criteria : RankingCriteria) (data : CompanyFinancialData) : ℚ :=
  let beta : ℚ := 1
  let eva_pct := (calculate_eva fmc data beta).map Prod.snd
  let efvp := calculate_efv fmc data beta
  let efv_pct := efvp.map Prod.snd
  let upside := match efvp with
    | some e => calculate_upside data e.1
    | none => none
  let profitability_score :=
    if data.revenue > 0 then data.net_income / data.revenue * 100 else 0
  let liquidity_score :=
    if data.current_liabilities > 0 then
      data.current_assets / data.current_liabilities * 100
    else 0
  custom_rank_final_score criteria eva_pct efv_pct upside
    profitability_score liquidity_score

/-- Modelled from the spec: min-max scaling fit across the full company
collection, as the spec requires - the minimum and maximum of the metric
column are taken over all companies before scaling a value (zero range
again replaced by 1, sklearn style). -/
def min_max_fit_transform_collection (column : List ℚ) (x : ℚ) : ℚ :=
  let data_min := column.foldr min x
  let data_max := column.foldr max x
  let data_range := data_max - data_min
  let scale := 1 / (if data_range = 0 then 1 else data_range)
  (x - data_min) * scale

/-! ## Spec-modelled comparison definitions (from the spec's words, for
refinement comparison against the code) -/

/-- Modelled from the spec: the six-way classification table as the spec
states it, with a boundary tie T = 0 counted as non-negative. -/
def spec_classification (CDG NCG T : ℚ) : String :=
  if CDG > 0 ∧ NCG > 0 ∧ T ≥ 0 then "Estrutura Ótima"
  else if CDG > 0 ∧ NCG > 0 ∧ T < 0 then "Alto Risco Financeiro"
  else if CDG > 0 ∧ NCG < 0 then "Baixo Risco Financeiro"
  else if CDG < 0 ∧ NCG > 0 then "Insolvência Total"
  else if CDG < 0 ∧ NCG < 0 ∧ T < 0 then "Estrutura Péssima (Falta)"
  else if CDG < 0 ∧ NCG < 0 ∧ T ≥ 0 then "Estrutura Péssima (Sobra)"
  else "Não identificado"

/-- Modelled from the spec: NCG with cyclical assets = receivables +
inventory + other operating current assets (the AC bucket) and cyclical
liabilities = payables + other operating current liabilities (the PC
bucket). -/
def spec_NCG (d : RDict) : ℚ :=
  (dget d "AC_Clientes" 0 + dget d "AC_Estoques" 0 + dget d "AC" 0) -
    (dget d "PC_Fornecedores" 0 + dget d "PC" 0)

/-- The classification the code actually implements, written as a pure
function of the sign triple (CDG, NCG, T): strict inequalities
everywhere, every tie with a sign of zero falling to the unclassified
bucket. -/
def code_sign_table (CDG NCG T : ℚ) : String :=
  if CDG > 0 then
    if NCG > 0 then
      if T > 0 then "Estrutura Ótima"
      else if T < 0 then "Alto Risco Financeiro"
      else "Não identificado"
    else if NCG < 0 then "Baixo Risco Financeiro"
    else "Não identificado"
  else if CDG < 0 then
    if NCG < 0 then
      if T > 0 then "Estrutura Péssima (Sobra)"
      else if T < 0 then "Estrutura Péssima (Falta)"
      else "Não identificado"
    else if NCG > 0 then "Insolvência Total"
    else "Não identificado"
  else "Não identificado"

/-! ## Concrete instances used by witnesses and counterexamples -/

/-- A reclassified period with PL = 5 and receivables 5: CDG = 5, NCG = 5,
T = 0, the boundary tie. -/
def reclassified_tie_example : RDict :=
  fun k => if k = "PL" then some 5 else if k = "AC_Clientes" then some 5 else none

/-- Scenario B: a reclassified period with PL = 200 and receivables 70,
so CDG = 200, NCG = 70, T = 130. -/
def reclassified_scenarioB : RDict :=
  fun k => if k = "PL" then some 200 else if k = "AC_Clientes" then some 70 else none

/-- A one-row statement frame whose only account, 1.01.06, lands in the
other-operating-current-assets bucket AC. -/
def df_other_current_assets : DataFrame := ⟨[("1.01.06", 10)], none⟩

/-- Scenario A as statement rows: receivables 100 (1.01.03), inventory 50
(1.01.04), payables 80 (2.01.02). -/
def df_scenarioA : DataFrame :=
  ⟨[("1.01.03", 100), ("1.01.04", 50), ("2.01.02", 80)], none⟩

/-- A one-row statement frame (total assets account 1), CATEGORY column
absent. -/
def df_single_total_row : DataFrame := ⟨[("1", 7)], none⟩

/-- A reclassified period whose total assets are zero (revenue and the
liability totals present). -/
def zscore_zero_assets_example : RDict :=
  fun k =>
    if k = "Ativo_Total" then some 0
    else if k = "DRE_Receita" then some 500
    else if k = "PC" then some 100
    else if k = "PNC" then some 200
    else none

/-- A complete reclassified period with nonzero denominators. -/
def zscore_complete_example : RDict :=
  fun k =>
    if k = "Ativo_Total" then some 1000
    else if k = "DRE_Receita" then some 500
    else if k = "PC" then some 100
    else if k = "PNC" then some 200
    else none

/-- The metrics calculator with its constructor defaults. -/
def defaultCalc : FinancialMetricsCalculator := {}

/-- A company with payables 5 and nothing on the asset side: its capital
employed is -5; EBIT 100 so NOPAT is 66. -/
def companyNegativeCE : CompanyFinancialData := { accounts_payable := 5, ebit := 100 }

/-- A company with payables 7 and equity 50: capital employed -7, a
defined WACC, EVA nan. -/
def companyNegativeCE7 : CompanyFinancialData :=
  { accounts_payable := 7, ebit := 100, equity := 50 }

/-! ## Helper lemmas -/

/-- A category that occurs in no row sums to zero. -/
theorem sumForCategory_eq_zero (df : DataFrame) (c : String)
    (h : (df.rows.map (fun r => rowCategory r.1)).contains c = false) :
    sumForCategory df c = 0 := by
  simp at h
  unfold sumForCategory
  have hnil : df.rows.filter (fun r => rowCategory r.1 = c) = [] :=
    List.filter_eq_nil_iff.mpr (by
      intro a ha
      simpa using h a.1 a.2 (by simpa using ha))
  rw [hnil]
  rfl

/-- dict.get c 0.0 on the reclassified dict is the per-category sum,
whether or not the category occurs. -/
theorem dget_reclassify (df : DataFrame) (c : String) :
    dget (reclassify_and_sum df).2 c 0 = sumForCategory df c := by
  unfold dget reclassify_and_sum
  dsimp only
  cases h : (df.rows.map (fun r => rowCategory r.1)).contains c with
  | true => rw [if_pos rfl, Option.getD_some]
  | false => rw [if_neg (by simp), Option.getD_none,
      sumForCategory_eq_zero df c h]

/-- The elif chain of calculate_fleuriet_indicators equals the nested
sign-triple table. -/
theorem chain_eq_table (cdg ncg t : ℚ) :
    (if cdg > 0 ∧ ncg > 0 ∧ t > 0 then "Estrutura Ótima"
     else if cdg > 0 ∧ ncg > 0 ∧ t < 0 then "Alto Risco Financeiro"
     else if cdg > 0 ∧ ncg < 0 then "Baixo Risco Financeiro"
     else if cdg < 0 ∧ ncg < 0 ∧ t > 0 then "Estrutura Péssima (Sobra)"
     else if cdg < 0 ∧ ncg < 0 ∧ t < 0 then "Estrutura Péssima (Falta)"
     else if cdg < 0 ∧ ncg > 0 then "Insolvência Total"
     else "Não identificado") = code_sign_table cdg ncg t := by
  unfold code_sign_table
  split_ifs <;> first
    | rfl
    | (exfalso; simp_all; try linarith)

mutual

/-- clean_data_for_json leaves no NaN or infinity in a value. -/
theorem cleanVal_no_nan_inf : (v : PyVal) → hasNanInfVal (clean_data_for_json v) = false
  | .pnan => rfl
  | .pinf => rfl
  | .pfloat _ => rfl
  | .pnone => rfl
  | .pstr _ => rfl
  | .ptimestamp _ => rfl
  | .plist items => by
      simpa [clean_data_for_json, hasNanInfVal] using cleanList_no_nan_inf items
  | .pdict entries => by
      simpa [clean_data_for_json, hasNanInfVal] using cleanEntries_no_nan_inf entries

/-- clean_data_for_json leaves no NaN or infinity in a list. -/
theorem cleanList_no_nan_inf : (l : List PyVal) → hasNanInfList (cleanList l) = false
  | [] => rfl
  | v :: rest => by
      simp [cleanList, hasNanInfList, cleanVal_no_nan_inf v, cleanList_no_nan_inf rest]

/-- clean_data_for_json leaves no NaN or infinity in dict entries. -/
theorem cleanEntries_no_nan_inf :
    (l : List (String × PyVal)) → hasNanInfEntries (cleanEntries l) = false
  | [] => rfl
  | (k, v) :: rest => by
      simp [cleanEntries, hasNanInfEntries, cleanVal_no_nan_inf v,
        cleanEntries_no_nan_inf rest]

end

/-- Summing the second components after dividing each by a constant. -/
theorem sum_snd_div (l : List (String × ℚ)) (c : ℚ) :
    ((l.map (fun p => (p.1, p.2 / c))).map Prod.snd).sum = (l.map Prod.snd).sum / c := by
  induction l with
  | nil => simp
  | cons a r ih =>
      simp only [List.map_cons, List.sum_cons]
      rw [ih, add_div]

/-- A MinMaxScaler fit on a single value scales that value to 0. -/
theorem min_max_single_eq_zero (x : ℚ) : min_max_fit_transform_single x = 0 := by
  simp [min_max_fit_transform_single]

/-- Every final_score built from per-company-fit scaling collapses to 0. -/
theorem custom_rank_final_score_eq_zero (criteria : RankingCriteria)
    (eva_pct efv_pct upside : Option ℚ) (profitability_score liquidity_score : ℚ) :
    custom_rank_final_score criteria eva_pct efv_pct upside
      profitability_score liquidity_score = 0 := by
  cases eva_pct <;> cases efv_pct <;> cases upside <;>
    simp [custom_rank_final_score, min_max_fit_transform_single]

/-! ## Claim theorems -/

/-- Claim C1: for every reclassified period, the treasury balance T
returned by calculate_fleuriet_indicators is exactly CDG - NCG of the
same returned record - T is computed from the returned CDG and NCG by
construction, never independently. -/
theorem fleuriet_T_invariant (reclassified_data : RDict) :
    (calculate_fleuriet_indicators reclassified_data).1.T =
      (calculate_fleuriet_indicators reclassified_data).1.CDG -
        (calculate_fleuriet_indicators reclassified_data).1.NCG := rfl

/-- Claim C2, counterexample: at the boundary tie CDG = 5, NCG = 5, T = 0
the code classifies the period as unclassified (Não identificado), while
the claim's table (T = 0 counted as non-negative) classifies it as the
optimal class. -/
theorem fleuriet_tie_goes_unclassified :
    (calculate_fleuriet_indicators reclassified_tie_example).1 = ⟨5, 5, 0⟩ ∧
    (calculate_fleuriet_indicators reclassified_tie_example).2 = "Não identificado" ∧
    spec_classification 5 5 0 = "Estrutura Ótima" ∧
    "Não identificado" ≠ "Estrutura Ótima" := by
  refine ⟨?_, ?_, ?_, by decide⟩ <;>
    simp [calculate_fleuriet_indicators, dget, reclassified_tie_example,
      spec_classification] <;> norm_num

/-- Claim C2, amended: the classification is a pure function of the sign
triple (CDG, NCG, T) realizing the six-way table with strict
inequalities - a tie T = 0 (with CDG and NCG both positive or both
negative) falls to the unclassified bucket, not to the T-nonnegative
class; in particular CDG = 200, NCG = 70 (T = 130) is classified
optimal. -/
theorem fleuriet_classification_sign_table :
    (∀ d : RDict, (calculate_fleuriet_indicators d).2 =
      code_sign_table (calculate_fleuriet_indicators d).1.CDG
        (calculate_fleuriet_indicators d).1.NCG
        (calculate_fleuriet_indicators d).1.T) ∧
    calculate_fleuriet_indicators reclassified_scenarioB =
      (⟨70, 200, 130⟩, "Estrutura Ótima") := by
  constructor
  · intro d
    unfold calculate_fleuriet_indicators
    dsimp only
    exact chain_eq_table _ _ _
  · refine Prod.ext ?_ ?_ <;>
      simp [calculate_fleuriet_indicators, dget, reclassified_scenarioB] <;> norm_num

/-- Claim C3, counterexample: a period holding 10 in the
other-operating-current-assets bucket (account 1.01.06, category AC) has
code NCG = 0, while the claim's formula (cyclical assets including other
operating current assets) gives 10. -/
theorem fleuriet_NCG_ignores_other_buckets :
    (calculate_fleuriet_indicators
      (reclassify_and_sum df_other_current_assets).2).1.NCG = 0 ∧
    spec_NCG (reclassify_and_sum df_other_current_assets).2 = 10 ∧
    (0 : ℚ) ≠ 10 := by
  have h6 : rowCategory "1.01.06" = "AC" := by decide
  refine ⟨?_, ?_, by norm_num⟩ <;>
    simp [calculate_fleuriet_indicators, spec_NCG, dget, reclassify_and_sum,
      df_other_current_assets, h6, sumForCategory]

/-- Claim C3, amended: for every reclassified period the NCG returned by
calculate_fleuriet_indicators is receivables (AC_Clientes) + inventory
(AC_Estoques) - payables (PC_Fornecedores) only; other operating current
assets and liabilities are not part of the code's cyclical aggregates.
In particular receivables = 100, inventory = 50, payables = 80 gives
NCG = 70 exactly. -/
theorem fleuriet_NCG_receivables_inventory_payables :
    (∀ df : DataFrame,
      (calculate_fleuriet_indicators (reclassify_and_sum df).2).1.NCG =
        sumForCategory df "AC_Clientes" + sumForCategory df "AC_Estoques" -
          sumForCategory df "PC_Fornecedores") ∧
    (calculate_fleuriet_indicators (reclassify_and_sum df_scenarioA).2).1.NCG = 70 := by
  have key : ∀ df : DataFrame,
      (calculate_fleuriet_indicators (reclassify_and_sum df).2).1.NCG =
        sumForCategory df "AC_Clientes" + sumForCategory df "AC_Estoques" -
          sumForCategory df "PC_Fornecedores" := by
    intro df
    show dget (reclassify_and_sum df).2 "AC_Clientes" 0 +
      dget (reclassify_and_sum df).2 "AC_Estoques" 0 -
      dget (reclassify_and_sum df).2 "PC_Fornecedores" 0 = _
    rw [dget_reclassify, dget_reclassify, dget_reclassify]
  refine ⟨key, ?_⟩
  rw [key]
  have h1 : rowCategory "1.01.03" = "AC_Clientes" := by decide
  have h2 : rowCategory "1.01.04" = "AC_Estoques" := by decide
  have h3 : rowCategory "2.01.02" = "PC_Fornecedores" := by decide
  simp [sumForCategory, df_scenarioA, List.filter, h1, h2, h3]
  norm_num

/-- Claim C4: calculate_z_score_prado returns no numeric Z when total
assets, revenue or NCG is missing or zero, and a numeric Z only when
every input is present and the ratio denominators (total assets,
revenue, NCG) are nonzero. -/
theorem z_score_guards_missing_and_zero (d : RDict) (cdg ncg t : Option ℚ)
    (tipo : String) :
    ((d "Ativo_Total" = none ∨ d "Ativo_Total" = some 0 ∨
      d "DRE_Receita" = none ∨ d "DRE_Receita" = some 0 ∨
      ncg = none ∨ ncg = some 0) →
      (calculate_z_score_prado d cdg ncg t tipo).1 = none) ∧
    (∀ z : ℚ, (calculate_z_score_prado d cdg ncg t tipo).1 = some z →
      cdg.isSome ∧ ncg.isSome ∧ t.isSome ∧
      (d "Ativo_Total").isSome ∧ (d "DRE_Receita").isSome ∧
      (d "PC").isSome ∧ (d "PNC").isSome ∧
      d "Ativo_Total" ≠ some 0 ∧ d "DRE_Receita" ≠ some 0 ∧ ncg ≠ some 0) := by
  constructor
  · intro h
    rcases hcdg : cdg with _ | cdgv <;>
    rcases hncg : ncg with _ | ncgv <;>
    rcases ht : t with _ | tv <;>
    rcases hta : d "Ativo_Total" with _ | tav <;>
    rcases hrec : d "DRE_Receita" with _ | recv <;>
    rcases hpc : d "PC" with _ | pcv <;>
    rcases hpnc : d "PNC" with _ | pncv <;>
      simp_all [calculate_z_score_prado, safe_divide] <;>
      (split_ifs <;> simp_all)
  · intro z hz
    rcases hcdg : cdg with _ | cdgv <;>
    rcases hncg : ncg with _ | ncgv <;>
    rcases ht : t with _ | tv <;>
    rcases hta : d "Ativo_Total" with _ | tav <;>
    rcases hrec : d "DRE_Receita" with _ | recv <;>
    rcases hpc : d "PC" with _ | pcv <;>
    rcases hpnc : d "PNC" with _ | pncv <;>
      simp_all [calculate_z_score_prado, safe_divide] <;>
      (split_ifs at hz <;> simp_all)

/-- Claim C4, witness: with total assets 0 the Z score is none; for a
complete period with nonzero denominators the theorem yields the nonzero
side conditions. -/
theorem z_score_guards_witness :
    (calculate_z_score_prado zscore_zero_assets_example (some 50) (some 25) (some 25)
      "Estrutura Ótima").1 = none ∧
    (zscore_complete_example "Ativo_Total" ≠ some 0 ∧
     zscore_complete_example "DRE_Receita" ≠ some 0 ∧
     (some 25 : Option ℚ) ≠ some 0) := by
  constructor
  · exact (z_score_guards_missing_and_zero zscore_zero_assets_example (some 50)
      (some 25) (some 25) "Estrutura Ótima").1
      (Or.inr (Or.inl (by simp [zscore_zero_assets_example])))
  · have hz : (calculate_z_score_prado zscore_complete_example (some 50) (some 25)
        (some 25) "Estrutura Ótima").1 = some (-69/2000) := by
      have h4 : tipo_estrutura_ordinal "Estrutura Ótima" = 4 := by decide
      simp [calculate_z_score_prado, safe_divide, zscore_complete_example, h4]
      norm_num
    exact ((z_score_guards_missing_and_zero zscore_complete_example (some 50)
      (some 25) (some 25) "Estrutura Ótima").2 (-69/2000) hz).2.2.2.2.2.2.2

/-- Claim C5: the intrinsic firm value is capital employed +
EVA (1 + g) / (WACC - g), and the computation returns no result whenever
WACC ≤ g. -/
theorem valuation_firm_value_perpetuity (capital_empregado roic wacc g : ℚ) :
    (wacc ≤ g → processar_valuation_firm_value capital_empregado roic wacc g = none) ∧
    (1/100 < wacc → wacc < 40/100 → g < wacc →
      processar_valuation_firm_value capital_empregado roic wacc g =
        some ((roic - wacc) * capital_empregado,
          capital_empregado +
            ((roic - wacc) * capital_empregado * (1 + g)) / (wacc - g))) := by
  constructor
  · intro h
    by_cases h1 : wacc ≤ 1/100 ∨ wacc ≥ 40/100
    · unfold processar_valuation_firm_value
      rw [if_pos h1]
    · unfold processar_valuation_firm_value
      rw [if_neg h1, if_pos h]
  · intro h1 h2 h3
    have hna : ¬ (wacc ≤ 1/100 ∨ wacc ≥ 40/100) := by
      push_neg
      exact ⟨h1, h2⟩
    unfold processar_valuation_firm_value
    rw [if_neg hna, if_neg (not_le.mpr h3)]

/-- Claim C5, witness: WACC 0.05, g 0.03, capital employed 1000, ROIC 0.07
(so EVA 20) gives firm value exactly 2030; WACC 0.02 ≤ g 0.03 gives no
result. -/
theorem valuation_firm_value_scenarioC :
    processar_valuation_firm_value 1000 (7/100) (5/100) (3/100) = some (20, 2030) ∧
    processar_valuation_firm_value 1000 (7/100) (2/100) (3/100) = none := by
  constructor
  · rw [(valuation_firm_value_perpetuity 1000 (7/100) (5/100) (3/100)).2
      (by norm_num) (by norm_num) (by norm_num)]
    norm_num
  · exact (valuation_firm_value_perpetuity 1000 (7/100) (2/100) (3/100)).1 (by norm_num)

/-- Claim C6, counterexample: for a company whose capital employed is -5
(payables 5, EBIT 100), _calculate_roce at that capital employed returns
the ordinary numeric value -66/5, not an undefined marker - the zero
guard in the code is an equality test, not ≤. -/
theorem roce_numeric_on_negative_capital :
    FinancialMetricsCalculator._calculate_capital_employed companyNegativeCE = -5 ∧
    FinancialMetricsCalculator._calculate_roce defaultCalc companyNegativeCE (-5) =
      some (-66/5) ∧
    (some (-66/5 : ℚ) : Option ℚ) ≠ none := by
  refine ⟨?_, ?_, by simp⟩
  · norm_num [FinancialMetricsCalculator._calculate_capital_employed,
      FinancialMetricsCalculator._calculate_ncg, companyNegativeCE]
  · norm_num [FinancialMetricsCalculator._calculate_roce,
      FinancialMetricsCalculator._calculate_nopat, companyNegativeCE, defaultCalc]

/-- Claim C6, amended: for every company whose capital employed is ≤ 0,
EVA (absolute and percent) and EFV (absolute and percent) are undefined
(none, the nan marker); ROCE is undefined when the capital employed
passed to it is exactly 0 - but for negative capital employed
_calculate_roce returns a finite numeric value (the pipeline only calls
it with positive capital employed). -/
theorem eva_efv_undefined_on_nonpositive_capital
    (fmc : FinancialMetricsCalculator) (data : CompanyFinancialData) (beta : ℚ)
    (h : FinancialMetricsCalculator._calculate_capital_employed data ≤ 0) :
    FinancialMetricsCalculator.calculate_eva fmc data beta = none ∧
    FinancialMetricsCalculator.calculate_efv fmc data beta = none ∧
    FinancialMetricsCalculator._calculate_roce fmc data 0 = none := by
  refine ⟨?_, ?_, ?_⟩
  · simp [FinancialMetricsCalculator.calculate_eva, h]
  · simp [FinancialMetricsCalculator.calculate_efv,
      FinancialMetricsCalculator.calculate_riqueza_atual,
      FinancialMetricsCalculator.calculate_eva, h]
  · simp [FinancialMetricsCalculator._calculate_roce]

/-- Claim C6, witness: the company with capital employed -5 has EVA, EFV
and zero-capital ROCE all undefined. -/
theorem eva_efv_undefined_witness :
    FinancialMetricsCalculator.calculate_eva defaultCalc companyNegativeCE 1 = none ∧
    FinancialMetricsCalculator.calculate_efv defaultCalc companyNegativeCE 1 = none ∧
    FinancialMetricsCalculator._calculate_roce defaultCalc companyNegativeCE 0 = none :=
  eva_efv_undefined_on_nonpositive_capital defaultCalc companyNegativeCE 1 (by
    norm_num [FinancialMetricsCalculator._calculate_capital_employed,
      FinancialMetricsCalculator._calculate_ncg, companyNegativeCE])

/-- Claim C7, counterexample: a company whose EVA is undefined (capital
employed -7) contributes 0, not an exclusion marker, to the
eva_percentual ranking column - generate_ranking_report fills NaN with 0
before ranking. -/
theorem ranking_report_fills_undefined_with_zero :
    FinancialMetricsCalculator.calculate_eva defaultCalc companyNegativeCE7 1 = none ∧
    CompanyRanking.report_eva_percentual defaultCalc companyNegativeCE7 1 = 0 := by
  have hce7 : FinancialMetricsCalculator._calculate_capital_employed
      companyNegativeCE7 = -7 := by
    norm_num [FinancialMetricsCalculator._calculate_capital_employed,
      FinancialMetricsCalculator._calculate_ncg, companyNegativeCE7]
  have heva : FinancialMetricsCalculator.calculate_eva defaultCalc
      companyNegativeCE7 1 = none := by
    simp [FinancialMetricsCalculator.calculate_eva, hce7]
  exact ⟨heva, by simp [CompanyRanking.report_eva_percentual, heva]⟩

/-- Claim C7, amended: the serializer clean_data_for_json maps every
NaN/infinite value to an explicit null so no NaN survives into the
output, but the ranking layer does not exclude undefined values: for
every company whose EVA is undefined, generate_ranking_report's cleanup
loop substitutes the numeric sentinel 0 into the ranking column. -/
theorem clean_json_nulls_and_report_fillna :
    (∀ v : PyVal, hasNanInfVal (clean_data_for_json v) = false) ∧
    (∀ (fmc : FinancialMetricsCalculator) (data : CompanyFinancialData) (beta : ℚ),
      FinancialMetricsCalculator.calculate_eva fmc data beta = none →
        CompanyRanking.report_eva_percentual fmc data beta = 0) := by
  constructor
  · exact cleanVal_no_nan_inf
  · intro fmc data beta h
    simp [CompanyRanking.report_eva_percentual, h]

/-- Claim C7, witness: a dict holding a NaN, an infinity inside a list and
a float cleans to a NaN-free value, and the company with undefined EVA
reports 0 in the ranking column. -/
theorem clean_json_nulls_witness :
    hasNanInfVal (clean_data_for_json (PyVal.pdict
      [("eva", PyVal.pnan), ("xs", PyVal.plist [PyVal.pinf, PyVal.pfloat 3])])) = false ∧
    CompanyRanking.report_eva_percentual defaultCalc companyNegativeCE7 1 = 0 := by
  constructor
  · exact clean_json_nulls_and_report_fillna.1 _
  · refine clean_json_nulls_and_report_fillna.2 defaultCalc companyNegativeCE7 1 ?_
    have hce7 : FinancialMetricsCalculator._calculate_capital_employed
        companyNegativeCE7 = -7 := by
      norm_num [FinancialMetricsCalculator._calculate_capital_employed,
        FinancialMetricsCalculator._calculate_ncg, companyNegativeCE7]
    simp [FinancialMetricsCalculator.calculate_eva, hce7]

/-- Claim C8, counterexample: when no score is positive (total score 0)
the allocator returns weight 0.0 for every ticker, not equal weighting;
and because the final weights are rounded to 4 decimal places, three
equal scores give 0.3333 each, not score / total = 1/3. -/
theorem allocation_zero_total_not_equal_weights :
    suggest_portfolio_allocation [("A", 0), ("B", 0)] = [("A", 0), ("B", 0)] ∧
    [("A", (0:ℚ)), ("B", 0)] ≠ [("A", (1:ℚ)/2), ("B", 1/2)] ∧
    suggest_portfolio_allocation [("A", 1), ("B", 1), ("C", 1)] =
      [("A", 3333/10000), ("B", 3333/10000), ("C", 3333/10000)] ∧
    (3333/10000 : ℚ) ≠ 1/3 := by
  refine ⟨?_, by norm_num, ?_, by norm_num⟩
  · simp [suggest_portfolio_allocation, List.filter]
  · have hr : pyRound4 (1/3 : ℚ) = 3333/10000 := by
      unfold pyRound4 round_half_even
      norm_num
    norm_num [suggest_portfolio_allocation, List.filter, hr]

/-- Claim C8, amended: the moderate-profile allocator gives each
positive-score ticker the weight round(score / Σ positive scores, 4);
when no score is positive every input ticker gets weight 0.0 (not equal
weighting); in particular scores 30 and 10 give exactly 0.75 and 0.25. -/
theorem allocation_weight_characterization :
    (∀ processed_data : List (String × ℚ),
      suggest_portfolio_allocation processed_data =
        if (processed_data.filter (fun p => p.2 > 0)).isEmpty then
          processed_data.map (fun p => (p.1, 0))
        else
          (processed_data.filter (fun p => p.2 > 0)).map
            (fun p => (p.1, pyRound4
              (p.2 / ((processed_data.filter (fun q => q.2 > 0)).map Prod.snd).sum)))) ∧
    suggest_portfolio_allocation [("A", 30), ("B", 10)] = [("A", 3/4), ("B", 1/4)] := by
  constructor
  · intro l
    by_cases he : (l.filter (fun p => p.2 > 0)).isEmpty
    · simp only [suggest_portfolio_allocation, he, if_true]
    · have hne : l.filter (fun p => p.2 > 0) ≠ [] := by
        simpa [List.isEmpty_iff] using he
      have hpos : ∀ x ∈ (l.filter (fun p => p.2 > 0)).map Prod.snd, 0 < x := by
        intro x hx
        rcases List.mem_map.mp hx with ⟨p, hp, rfl⟩
        have := (List.mem_filter.mp hp).2
        exact of_decide_eq_true this
      have hmapne : (l.filter (fun p => p.2 > 0)).map Prod.snd ≠ [] := by
        simpa using hne
      have htot : 0 < ((l.filter (fun p => p.2 > 0)).map Prod.snd).sum :=
        List.sum_pos _ hpos hmapne
      have hsum1 : (((l.filter (fun p => p.2 > 0)).map
          (fun p => (p.1, p.2 / ((l.filter (fun p => p.2 > 0)).map Prod.snd).sum))).map
            Prod.snd).sum = 1 := by
        rw [sum_snd_div]
        exact div_self htot.ne'
      simp only [suggest_portfolio_allocation, he, if_false, htot.ne', if_neg, hsum1]
      rw [if_pos (by norm_num : (1:ℚ) > 0)]
      simp only [Bool.false_eq_true, if_false]
      rw [List.map_map, List.map_map]
      apply List.map_congr_left
      intro p hp
      simp [Function.comp]
  · simp [suggest_portfolio_allocation, List.filter, pyRound4, round_half_even]
    norm_num

/-- Claim C9: because custom_rank_companies fits the MinMaxScaler on each
single company's value, every scaled metric is 0 and every company's
weighted composite final_score is identically 0, for every criteria
weighting and every company - so a larger raw metric value never
receives a larger scaled value; two companies with EVA percent 20 and 10
and identical other metrics both score 0. -/
theorem custom_rank_scores_identically_zero :
    (∀ (criteria : RankingCriteria) (eva_pct efv_pct upside : Option ℚ)
      (profitability_score liquidity_score : ℚ),
      custom_rank_final_score criteria eva_pct efv_pct upside
        profitability_score liquidity_score = 0) ∧
    (∀ (fmc : FinancialMetricsCalculator) (criteria : RankingCriteria)
      (data : CompanyFinancialData),
      custom_rank_company_score fmc criteria data = 0) ∧
    custom_rank_final_score ⟨3/10, 3/10, 2/10, 1/10, 1/10⟩
      (some 20) (some 5) (some 3) 7 9 = 0 ∧
    custom_rank_final_score ⟨3/10, 3/10, 2/10, 1/10, 1/10⟩
      (some 10) (some 5) (some 3) 7 9 = 0 := by
  refine ⟨custom_rank_final_score_eq_zero, ?_,
    custom_rank_final_score_eq_zero _ _ _ _ _ _,
    custom_rank_final_score_eq_zero _ _ _ _ _ _⟩
  intro fmc criteria data
  unfold custom_rank_company_score
  exact custom_rank_final_score_eq_zero _ _ _ _ _ _

/-- Claim C10, counterexample: reclassify_and_sum does not leave the input
DataFrame unchanged - on a frame without a CATEGORY column it writes
one, so the post-state differs from the argument. -/
theorem reclassify_adds_category_column :
    (reclassify_and_sum df_single_total_row).1 ≠ df_single_total_row ∧
    (reclassify_and_sum df_single_total_row).1.category = some ["Ativo_Total"] ∧
    df_single_total_row.category = none := by decide

/-- Claim C10, amended: reclassify_and_sum leaves the CD_CONTA/VL_CONTA
rows of the input unchanged, but it does have one side effect on the
frame it was given: it writes the derived CATEGORY column. -/
theorem reclassify_preserves_rows :
    ∀ df : DataFrame,
      (reclassify_and_sum df).1.rows = df.rows ∧
      (reclassify_and_sum df).1.category =
        some (df.rows.map (fun r => rowCategory r.1)) :=
  fun _ => ⟨rfl, rfl⟩

end ModelFleuriet
